import Mathlib

/-!
Shallow embedding of the HTTP payment gateway in src/server.js.

Each Express route handler is embedded as a pure Lean function from the
request data and the payment provider's behaviour (passed in as a function
or record of functions, since the provider is an external network service)
to the HTTP response together with the ordered list of provider calls the
handler issued.  JavaScript truthiness of string fields (`!x` is true for
undefined, null and the empty string) is modelled by `truthyStr` on
`Option String`.  Monetary amounts arrive as decimal numbers and are
modelled as rationals; `Math.round` is modelled by `jsMathRound`.
-/

namespace StripeGateway

/-- JS truthiness of an optional string field destructured from a JSON
body: `undefined`/`null` (here `none`) and the empty string are falsy. -/
def truthyStr : Option String → Bool
  | none => false
  | some s => !s.isEmpty

/-- The JS `Math.round` function on a real number: round half toward positive infinity,
i.e. `⌊x + 1/2⌋`.  Used at src/server.js:92 (`Math.round(amount * 100)`). -/
def jsMathRound (q : ℚ) : ℤ := ⌊q + 1/2⌋

/-- Rounding to the nearest integer with ties going away from zero,
the rounding rule named by the specification. -/
def roundHalfAwayFromZero (q : ℚ) : ℤ :=
  if 0 ≤ q then ⌊q + 1/2⌋ else ⌈q - 1/2⌉

/-- A customer object as returned by the provider (fields the gateway
reads: `id`, `email`, `name`, `created`). -/
structure Customer where
  id : String
  email : String
  name : Option String
  created : ℤ
deriving DecidableEq

/-- The expanded payment-intent object embedded in an invoice. -/
structure PaymentIntentObj where
  client_secret : String
deriving DecidableEq

/-- An invoice object; `payment_intent` is `none` when the provider
returns `null` or omits the expansion. -/
structure Invoice where
  payment_intent : Option PaymentIntentObj
deriving DecidableEq

/-- A subscription object returned by the provider's create-subscription
call; `latest_invoice` is `none` when the provider returns `null`. -/
structure Subscription where
  id : String
  latest_invoice : Option Invoice
deriving DecidableEq

/-- The subscription object returned by the provider's update call, as
read by the cancel-subscription handler. -/
structure CancelResult where
  id : String
  cancel_at_period_end : Bool
  current_period_end : ℤ
deriving DecidableEq

/-- The calls the gateway can issue to the payment provider's SDK.
`cancelSubscriptionNow` is the provider's immediate-cancellation
operation (`stripe.subscriptions.cancel`), present in the SDK's
vocabulary; the gateway's code never issues it. -/
inductive ProviderCall where
  | createPaymentIntent (amount : ℤ) (currency : String)
      (metadata : List (String × String))
  | attachPaymentMethod (paymentMethodId customerId : String)
  | updateCustomer (customerId defaultPaymentMethodId : String)
  | createSubscription (customerId priceId : String)
  | updateSubscription (subscriptionId : String) (cancelAtPeriodEnd : Bool)
  | cancelSubscriptionNow (subscriptionId : String)
  | createCustomer (email : String) (name : Option String)
      (metadata : List (String × String))
  | listCustomers (email : String) (limit : ℕ)
deriving DecidableEq

/-- Normalized JSON response bodies produced by the gateway's handlers. -/
inductive RespBody where
  | errorMsg (error : String)
  | errorWith (error message : String)
  | text (s : String)
  | paymentIntent (clientSecret paymentIntentId : String)
  | subscriptionCreated (subscriptionId clientSecret : String)
  | customerNew (customerId email : String) (name : Option String)
  | customerGet (customerId email : String) (name : Option String) (created : ℤ)
  | cancelInfo (subscriptionId : String) (cancelAtPeriodEnd : Bool)
      (currentPeriodEnd : ℤ)
  | received
  | empty
deriving DecidableEq

/-- An HTTP response: status code and JSON (or text) body. -/
structure Resp where
  status : ℕ
  body : RespBody
deriving DecidableEq

/-! ### POST /api/create-payment-intent (src/server.js:80-111) -/

/-- The request body of `/api/create-payment-intent`:
`const { amount, currency = 'usd', metadata = {} } = req.body`. -/
structure PaymentIntentReq where
  amount : Option ℚ
  currency : Option String
  metadata : Option (List (String × String))
deriving DecidableEq

/-- Outcome of the provider's create-payment-intent call. -/
inductive PIResult where
  | ok (client_secret id : String)
  | err (message : String)
deriving DecidableEq

/-- Handler of `POST /api/create-payment-intent` (src/server.js:80-111).
Validation: `if (!amount || amount < 0.50)` returns 400 before any
provider call; otherwise the provider is called with
`Math.round(amount * 100)` minor units. -/
def createPaymentIntentHandler (req : PaymentIntentReq)
    (provider : ℤ → String → List (String × String) → PIResult) :
    Resp × List ProviderCall :=
  match req.amount with
  | none => (⟨400, .errorMsg "Invalid amount. Minimum amount is $0.50"⟩, [])
  | some a =>
    if a = 0 ∨ a < 1/2 then
      (⟨400, .errorMsg "Invalid amount. Minimum amount is $0.50"⟩, [])
    else
      let cents := jsMathRound (a * 100)
      let currency := req.currency.getD "usd"
      let metadata := req.metadata.getD []
      let call := ProviderCall.createPaymentIntent cents currency metadata
      match provider cents currency metadata with
      | .ok cs pid => (⟨200, .paymentIntent cs pid⟩, [call])
      | .err m => (⟨500, .errorWith "Failed to create payment intent" m⟩, [call])

/-! ### POST /api/webhooks/stripe (src/server.js:246-299) and preflight -/

/-- A provider webhook event as produced by the SDK's
`constructEvent`: an event-type string and the id of the embedded
object (`event.data.object.id`). -/
structure StripeEvent where
  type : String
  objectId : String
deriving DecidableEq

/-- The event-dispatch switch of the webhook handler
(src/server.js:258-296): each recognized event type logs a fixed message
with the object id; the default arm logs the unhandled type.  No arm has
any other effect. -/
def webhookEventLog (e : StripeEvent) : String :=
  if e.type = "payment_intent.succeeded" then "Payment succeeded: " ++ e.objectId
  else if e.type = "payment_intent.payment_failed" then "Payment failed: " ++ e.objectId
  else if e.type = "customer.subscription.created" then "Subscription created: " ++ e.objectId
  else if e.type = "customer.subscription.updated" then "Subscription updated: " ++ e.objectId
  else if e.type = "customer.subscription.deleted" then "Subscription deleted: " ++ e.objectId
  else if e.type = "invoice.payment_succeeded" then "Invoice payment succeeded: " ++ e.objectId
  else if e.type = "invoice.payment_failed" then "Invoice payment failed: " ++ e.objectId
  else "Unhandled event type " ++ e.type

/-- Handler of `POST /api/webhooks/stripe` (src/server.js:246-299).
`constructEvent` is the provider SDK's signature verification
(`stripe.webhooks.constructEvent(req.body, sig, webhookSecret)`): it
either rejects the (body, signature, secret) triple with an error
message or yields the parsed event.  The second component is the log
line produced by the event-dispatch switch, `none` when the switch was
never reached. -/
def webhookHandler (body : String) (sig : Option String) (secret : String)
    (constructEvent : String → Option String → String → Except String StripeEvent) :
    Resp × Option String :=
  match constructEvent body sig secret with
  | .error m => (⟨400, .text ("Webhook Error: " ++ m)⟩, none)
  | .ok e => (⟨200, .received⟩, some (webhookEventLog e))

/-! ### app.options('*') preflight handler (src/server.js:27-33) -/

/-- The CORS allow-list configured for the `cors` middleware
(src/server.js:14-19). -/
def corsAllowList : List String :=
  ["http://localhost:3000", "http://localhost:8080",
   "https://vibebeads.net", "https://www.vibebeads.net"]

/-- Handler of `app.options('*')` (src/server.js:27-33): answers any
path with `res.sendStatus(200)` (text body "OK") and four CORS headers;
`Access-Control-Allow-Origin` is set to `req.headers.origin` as-is.
The second component is the response's header list (header name paired
with the value; the echoed origin is `none` when the request had no
Origin header). -/
def optionsHandler (path : String) (origin : Option String) :
    Resp × List (String × Option String) :=
  (⟨200, .text "OK"⟩,
   [("Access-Control-Allow-Origin", origin),
    ("Access-Control-Allow-Methods", some "GET,PUT,POST,DELETE,OPTIONS"),
    ("Access-Control-Allow-Headers",
      some "Content-Type, Authorization, Content-Length, X-Requested-With"),
    ("Access-Control-Allow-Credentials", some "true")])

/-! ### GET /api/customer/:email (src/server.js:188-216) -/

/-- Handler of `GET /api/customer/:email` (src/server.js:188-216).
`listResult` is the outcome of `stripe.customers.list({ email, limit: 1 })`:
an error message on provider failure, or the `data` array.  Zero matches
give 404; otherwise the first match's `id`, `email`, `name`, `created`
are returned. -/
def getCustomerHandler (email : String)
    (listResult : Except String (List Customer)) : Resp × List ProviderCall :=
  let call := ProviderCall.listCustomers email 1
  match listResult with
  | .error m => (⟨500, .errorWith "Failed to retrieve customer" m⟩, [call])
  | .ok [] => (⟨404, .errorMsg "Customer not found"⟩, [call])
  | .ok (c :: _) => (⟨200, .customerGet c.id c.email c.name c.created⟩, [call])

/-! ### POST /api/create-customer (src/server.js:158-185) -/

/-- The request body of `/api/create-customer`:
`const { email, name, metadata = {} } = req.body`. -/
structure CustomerReq where
  email : Option String
  name : Option String
  metadata : Option (List (String × String))
deriving DecidableEq

/-- Handler of `POST /api/create-customer` (src/server.js:158-185).
`if (!email)` returns 400 before any provider call; otherwise
`stripe.customers.create({ email, name, metadata })` is called and the
provider-returned `id`, `email`, `name` are relayed. -/
def createCustomerHandler (req : CustomerReq)
    (create : String → Option String → List (String × String) → Except String Customer) :
    Resp × List ProviderCall :=
  if truthyStr req.email then
    let e := req.email.getD ""
    let md := req.metadata.getD []
    let call := ProviderCall.createCustomer e req.name md
    match create e req.name md with
    | .error m => (⟨500, .errorWith "Failed to create customer" m⟩, [call])
    | .ok c => (⟨200, .customerNew c.id c.email c.name⟩, [call])
  else
    (⟨400, .errorMsg "Email is required"⟩, [])

/-! ### POST /api/create-subscription (src/server.js:114-155) -/

/-- The request body of `/api/create-subscription`:
`const { customerId, priceId, paymentMethodId } = req.body`. -/
structure SubscriptionReq where
  customerId : Option String
  priceId : Option String
  paymentMethodId : Option String
deriving DecidableEq

/-- The provider operations the create-subscription handler uses:
`stripe.paymentMethods.attach`, `stripe.customers.update` and
`stripe.subscriptions.create`. -/
structure SubProvider where
  attach : String → String → Except String Unit
  updateCustomer : String → String → Except String Unit
  createSubscription : String → String → Except String Subscription

/-- The `TypeError` message raised by
`subscription.latest_invoice.payment_intent` when `latest_invoice` is
null (src/server.js:146), caught by the handler's catch block. -/
def nullInvoiceError : String :=
  "Cannot read properties of null (reading payment_intent)"

/-- The `TypeError` message raised by `....payment_intent.client_secret`
when `payment_intent` is null (src/server.js:146), caught by the
handler's catch block. -/
def nullPaymentIntentError : String :=
  "Cannot read properties of null (reading client_secret)"

/-- Tail of the create-subscription handler after any payment-method
handling: the `stripe.subscriptions.create` call at src/server.js:137-142
and the response construction at src/server.js:144-147, with the
enclosing try/catch turning a thrown `TypeError` (null `latest_invoice`
or null `payment_intent`) into the 500 response of src/server.js:148-154.
`pre` is the list of provider calls already made. -/
def createSubscriptionFinish (customerId priceId : String) (p : SubProvider)
    (pre : List ProviderCall) : Resp × List ProviderCall :=
  let calls := pre ++ [ProviderCall.createSubscription customerId priceId]
  match p.createSubscription customerId priceId with
  | .error m => (⟨500, .errorWith "Failed to create subscription" m⟩, calls)
  | .ok sub =>
    match sub.latest_invoice with
    | none => (⟨500, .errorWith "Failed to create subscription" nullInvoiceError⟩, calls)
    | some inv =>
      match inv.payment_intent with
      | none =>
        (⟨500, .errorWith "Failed to create subscription" nullPaymentIntentError⟩, calls)
      | some pi =>
        (⟨200, .subscriptionCreated sub.id pi.client_secret⟩, calls)

/-- Handler of `POST /api/create-subscription` (src/server.js:114-155).
Missing `customerId` or `priceId` gives 400 before any provider call.
`if (paymentMethodId)`: when truthy, the payment method is attached and
set as the customer's default before the subscription is created; a
failure of either preliminary call is caught and mapped to 500 with no
further provider call. -/
def createSubscriptionHandler (req : SubscriptionReq) (p : SubProvider) :
    Resp × List ProviderCall :=
  if truthyStr req.customerId && truthyStr req.priceId then
    let cid := req.customerId.getD ""
    let pid := req.priceId.getD ""
    if truthyStr req.paymentMethodId then
      let pm := req.paymentMethodId.getD ""
      match p.attach pm cid with
      | .error m =>
        (⟨500, .errorWith "Failed to create subscription" m⟩,
         [ProviderCall.attachPaymentMethod pm cid])
      | .ok _ =>
        match p.updateCustomer cid pm with
        | .error m =>
          (⟨500, .errorWith "Failed to create subscription" m⟩,
           [ProviderCall.attachPaymentMethod pm cid,
            ProviderCall.updateCustomer cid pm])
        | .ok _ =>
          createSubscriptionFinish cid pid p
            [ProviderCall.attachPaymentMethod pm cid,
             ProviderCall.updateCustomer cid pm]
    else
      createSubscriptionFinish cid pid p []
  else
    (⟨400, .errorMsg "Customer ID and Price ID are required"⟩, [])

/-! ### POST /api/cancel-subscription (src/server.js:219-243) -/

/-- Handler of `POST /api/cancel-subscription` (src/server.js:219-243).
Missing `subscriptionId` gives 400 before any provider call; otherwise
`stripe.subscriptions.update(subscriptionId, { cancel_at_period_end:
true })` is the one provider call issued. -/
def cancelSubscriptionHandler (subscriptionId : Option String)
    (update : String → Bool → Except String CancelResult) :
    Resp × List ProviderCall :=
  if truthyStr subscriptionId then
    let sid := subscriptionId.getD ""
    let call := ProviderCall.updateSubscription sid true
    match update sid true with
    | .error m => (⟨500, .errorWith "Failed to cancel subscription" m⟩, [call])
    | .ok s =>
      (⟨200, .cancelInfo s.id s.cancel_at_period_end s.current_period_end⟩, [call])
  else
    (⟨400, .errorMsg "Subscription ID is required"⟩, [])

/-! ### Rate limiter (src/server.js:36-41) -/

/-- Window length `windowMs: 15 * 60 * 1000` (src/server.js:37), in milliseconds. -/
def windowMs : ℕ := 15 * 60 * 1000

/-- Limit `max: 100` (src/server.js:38): requests allowed per client per window. -/
def maxRequestsPerWindow : ℕ := 100

/-- The over-limit message configured at src/server.js:39. -/
def rateLimitMessage : String :=
  "Too many requests from this IP, please try again later."

/-- Modelled from the spec: the per-client counter state of the
`express-rate-limit` middleware (the library's implementation is not
part of this repository; src/server.js:36-41 only configures it).  The
spec describes per-client counters reset on a 15-minute window. -/
structure LimiterState where
  windowStart : ℕ
  count : ℕ
deriving DecidableEq

/-- Modelled from the spec: one `/api/*` request from a client at time
`t` (milliseconds) against the client's limiter state (`none` before the
first request).  A request at or after `windowStart + windowMs` starts a
new window; within a window the counter increments and the request is
allowed while the count stays ≤ `maxRequestsPerWindow`. -/
def rateLimitStep : Option LimiterState → ℕ → LimiterState × Bool
  | none, t => (⟨t, 1⟩, decide (1 ≤ maxRequestsPerWindow))
  | some st, t =>
    if st.windowStart + windowMs ≤ t then
      (⟨t, 1⟩, decide (1 ≤ maxRequestsPerWindow))
    else
      (⟨st.windowStart, st.count + 1⟩,
       decide (st.count + 1 ≤ maxRequestsPerWindow))

/-- Modelled from the spec: the response of the rate-limit middleware —
`none` when the request is passed on to the route, or the 429 rejection
carrying the configured message. -/
def rateLimitReject (allowed : Bool) : Option (ℕ × String) :=
  if allowed then none else some (429, rateLimitMessage)

/-- Run the limiter over a list of request times from one client,
returning the final state and each request's allowed flag in order. -/
def runLimiter : Option LimiterState → List ℕ → Option LimiterState × List Bool
  | s, [] => (s, [])
  | s, t :: ts =>
    let r := rateLimitStep s t
    let rest := runLimiter (some r.1) ts
    (rest.1, r.2 :: rest.2)

end StripeGateway

namespace StripeGateway

/-- C1: for every accepted payment-intent request with amount ≥ 0.50, the
amount passed to the provider's create-payment-intent call equals
round(amount × 100), rounding half away from zero, as an integer number
of minor units — and exactly one such call is made. -/
theorem claim1_amount_sent_is_rounded_minor_units
    (req : PaymentIntentReq) (provider : ℤ → String → List (String × String) → PIResult)
    (a : ℚ) (hamt : req.amount = some a) (hmin : 1/2 ≤ a) :
    (createPaymentIntentHandler req provider).2 =
      [ProviderCall.createPaymentIntent (roundHalfAwayFromZero (a * 100))
        (req.currency.getD "usd") (req.metadata.getD [])] := by
  have hpos : (0 : ℚ) < a := lt_of_lt_of_le (by norm_num) hmin
  have hcond : ¬(a = 0 ∨ a < 1/2) := by
    push_neg
    exact ⟨ne_of_gt hpos, hmin⟩
  have hround : jsMathRound (a * 100) = roundHalfAwayFromZero (a * 100) := by
    have h100 : (0 : ℚ) ≤ a * 100 := by positivity
    unfold jsMathRound roundHalfAwayFromZero
    rw [if_pos h100]
  unfold createPaymentIntentHandler
  rw [hamt]
  simp only [if_neg hcond]
  rw [← hround]
  cases provider (jsMathRound (a * 100)) (req.currency.getD "usd") (req.metadata.getD []) <;> rfl

/-- Witness for C1 at amount = 1 (one dollar), provider succeeding. -/
theorem claim1_witness :
    (1 : ℚ)/2 ≤ 1 ∧
    (createPaymentIntentHandler ⟨some 1, some "usd", some []⟩
        (fun _ _ _ => .ok "cs_secret" "pi_1")).2 =
      [ProviderCall.createPaymentIntent (roundHalfAwayFromZero (1 * 100)) "usd" []] :=
  ⟨by norm_num,
   claim1_amount_sent_is_rounded_minor_units ⟨some 1, some "usd", some []⟩
     (fun _ _ _ => .ok "cs_secret" "pi_1") 1 rfl (by norm_num)⟩

/-- C2: for every create-payment-intent request whose amount is missing or
below 0.50, the handler returns 400 with the fixed message and the
provider is never invoked. -/
theorem claim2_reject_below_minimum_before_provider
    (req : PaymentIntentReq) (provider : ℤ → String → List (String × String) → PIResult)
    (h : req.amount = none ∨ ∃ a, req.amount = some a ∧ a < 1/2) :
    (createPaymentIntentHandler req provider).1 =
      ⟨400, .errorMsg "Invalid amount. Minimum amount is $0.50"⟩ ∧
    (createPaymentIntentHandler req provider).2 = [] := by
  rcases h with hnone | ⟨a, hsome, hlt⟩
  · unfold createPaymentIntentHandler
    rw [hnone]
    exact ⟨rfl, rfl⟩
  · unfold createPaymentIntentHandler
    rw [hsome]
    refine ⟨?_, ?_⟩ <;> (split <;> simp_all)

/-- A non-empty string field is truthy. -/
theorem truthyStr_some {s : String} (h : s ≠ "") : truthyStr (some s) = true := by
  simp [truthyStr, Bool.eq_false_iff, String.isEmpty_iff, h]

/-- Witness for C2 at amount = 0.25. -/
theorem claim2_witness :
    (createPaymentIntentHandler ⟨some (1/4), none, none⟩
        (fun _ _ _ => .ok "cs" "pi")).1 =
      ⟨400, .errorMsg "Invalid amount. Minimum amount is $0.50"⟩ ∧
    (createPaymentIntentHandler ⟨some (1/4), none, none⟩
        (fun _ _ _ => .ok "cs" "pi")).2 = [] :=
  claim2_reject_below_minimum_before_provider ⟨some (1/4), none, none⟩
    (fun _ _ _ => .ok "cs" "pi") (Or.inr ⟨1/4, rfl, by norm_num⟩)

/-- C3: a webhook request whose (body, signature, secret) triple is
rejected by the provider's signature verification returns 400 with the
verification error text and the event-dispatch switch is never reached
(no dispatch log); a verified request returns 200 with received-true and
the dispatch log of its event, whatever the event type. -/
theorem claim3_webhook_signature_gate
    (body : String) (sig : Option String) (secret : String)
    (constructEvent : String → Option String → String → Except String StripeEvent) :
    (∀ m, constructEvent body sig secret = .error m →
      webhookHandler body sig secret constructEvent =
        (⟨400, .text ("Webhook Error: " ++ m)⟩, none)) ∧
    (∀ e, constructEvent body sig secret = .ok e →
      webhookHandler body sig secret constructEvent =
        (⟨200, .received⟩, some (webhookEventLog e))) := by
  constructor
  · intro m hm
    unfold webhookHandler
    rw [hm]
  · intro e he
    unfold webhookHandler
    rw [he]

/-- Witness for C3: verification succeeding on an unrecognized event
type, and verification failing with a message. -/
theorem claim3_witness :
    webhookHandler "payload" (some "t=1,v1=sig") "whsec_x"
        (fun _ _ _ => .ok ⟨"some.unknown", "obj_1"⟩) =
      (⟨200, .received⟩, some "Unhandled event type some.unknown") ∧
    webhookHandler "payload" none "whsec_x"
        (fun _ _ _ => .error "No signatures found") =
      (⟨400, .text "Webhook Error: No signatures found"⟩, none) := by
  constructor
  · rw [(claim3_webhook_signature_gate "payload" (some "t=1,v1=sig") "whsec_x"
      (fun _ _ _ => .ok ⟨"some.unknown", "obj_1"⟩)).2 ⟨"some.unknown", "obj_1"⟩ rfl]
    rfl
  · exact (claim3_webhook_signature_gate "payload" none "whsec_x"
      (fun _ _ _ => .error "No signatures found")).1 "No signatures found" rfl

/-- C5: every OPTIONS request, to any path, gets status 200 with the
`Access-Control-Allow-Origin` header echoing the request's Origin
verbatim; the response does not depend on the path, and an origin
outside the configured CORS allow-list is echoed all the same. -/
theorem claim5_preflight_echoes_origin
    (path otherPath : String) (origin : Option String) :
    ((optionsHandler path origin).1.status = 200 ∧
     (optionsHandler path origin).2.lookup "Access-Control-Allow-Origin" =
       some origin ∧
     optionsHandler path origin = optionsHandler otherPath origin) ∧
    (∀ o : String, o ∉ corsAllowList →
      (optionsHandler path (some o)).2.lookup "Access-Control-Allow-Origin" =
        some (some o)) :=
  ⟨⟨rfl, rfl, rfl⟩, fun _ _ => rfl⟩

/-- Witness for C5 at a route-less path and an origin outside the
allow-list. -/
theorem claim5_witness :
    "https://evil.example" ∉ corsAllowList ∧
    (optionsHandler "/no/such/route" (some "https://evil.example")).2.lookup
        "Access-Control-Allow-Origin" = some (some "https://evil.example") :=
  ⟨by decide,
   (claim5_preflight_echoes_origin "/no/such/route" "/other"
     (some "https://evil.example")).2 "https://evil.example" (by decide)⟩

/-- C6: the customer-by-email handler returns 404 when the provider
reports zero matches, returns the first match's id, email, name and
created timestamp otherwise, and is deterministic in the provider's
response. -/
theorem claim6_get_customer_by_email (email : String) :
    ((getCustomerHandler email (.ok [])).1 =
      ⟨404, .errorMsg "Customer not found"⟩) ∧
    (∀ c rest, (getCustomerHandler email (.ok (c :: rest))).1 =
      ⟨200, .customerGet c.id c.email c.name c.created⟩) ∧
    (∀ r₁ r₂ : Except String (List Customer), r₁ = r₂ →
      getCustomerHandler email r₁ = getCustomerHandler email r₂) :=
  ⟨rfl, fun _ _ => rfl, fun _ _ h => by rw [h]⟩

/-- Witness for C6 at a concrete email, empty and one-element provider
answers. -/
theorem claim6_witness :
    (getCustomerHandler "a@b.c" (.ok [])).1 =
      ⟨404, .errorMsg "Customer not found"⟩ ∧
    (getCustomerHandler "a@b.c"
        (.ok [⟨"cus_1", "a@b.c", some "Ann", 123⟩])).1 =
      ⟨200, .customerGet "cus_1" "a@b.c" (some "Ann") 123⟩ ∧
    getCustomerHandler "a@b.c" (.ok []) = getCustomerHandler "a@b.c" (.ok []) := by
  obtain ⟨h1, h2, h3⟩ := claim6_get_customer_by_email "a@b.c"
  exact ⟨h1, h2 ⟨"cus_1", "a@b.c", some "Ann", 123⟩ [], h3 _ _ rfl⟩

/-- C8: create-customer without an email field returns 400 before any
provider call; with an email it invokes the provider's create-customer
operation and relays the provider-assigned id, email and name verbatim. -/
theorem claim8_create_customer
    (req : CustomerReq)
    (create : String → Option String → List (String × String) → Except String Customer) :
    (req.email = none →
      createCustomerHandler req create =
        (⟨400, .errorMsg "Email is required"⟩, [])) ∧
    (∀ e c, req.email = some e → e ≠ "" →
      create e req.name (req.metadata.getD []) = .ok c →
      createCustomerHandler req create =
        (⟨200, .customerNew c.id c.email c.name⟩,
         [ProviderCall.createCustomer e req.name (req.metadata.getD [])])) := by
  constructor
  · intro h
    unfold createCustomerHandler
    rw [h]
    rfl
  · intro e c he hne hok
    unfold createCustomerHandler
    rw [he, if_pos (truthyStr_some hne)]
    simp only [Option.getD_some]
    rw [hok]

/-- Witness for C8: a request with no email, and one with an email whose
provider call succeeds. -/
theorem claim8_witness :
    createCustomerHandler ⟨none, some "Ann", none⟩ (fun _ _ _ => .error "never") =
      (⟨400, .errorMsg "Email is required"⟩, []) ∧
    createCustomerHandler ⟨some "a@b.c", some "Ann", none⟩
        (fun _ _ _ => .ok ⟨"cus_7", "a@b.c", some "Ann", 5⟩) =
      (⟨200, .customerNew "cus_7" "a@b.c" (some "Ann")⟩,
       [ProviderCall.createCustomer "a@b.c" (some "Ann") []]) :=
  ⟨(claim8_create_customer ⟨none, some "Ann", none⟩
      (fun _ _ _ => .error "never")).1 rfl,
   (claim8_create_customer ⟨some "a@b.c", some "Ann", none⟩
      (fun _ _ _ => .ok ⟨"cus_7", "a@b.c", some "Ann", 5⟩)).2
     "a@b.c" ⟨"cus_7", "a@b.c", some "Ann", 5⟩ rfl (by decide) rfl⟩

/-- The trace of `createSubscriptionFinish` is the pending calls followed
by the create-subscription call, whatever the provider returns. -/
theorem createSubscriptionFinish_calls (cid pid : String) (p : SubProvider)
    (pre : List ProviderCall) :
    (createSubscriptionFinish cid pid p pre).2 =
      pre ++ [ProviderCall.createSubscription cid pid] := by
  unfold createSubscriptionFinish
  cases p.createSubscription cid pid with
  | error m => rfl
  | ok sub =>
    dsimp only
    cases sub.latest_invoice with
    | none => rfl
    | some inv =>
      dsimp only
      cases inv.payment_intent with
      | none => rfl
      | some pi => rfl

/-- The response of `createSubscriptionFinish` when the provider's
create call succeeds, by the shape of the returned subscription. -/
theorem createSubscriptionFinish_resp (cid pid : String) (p : SubProvider)
    (pre : List ProviderCall) (sub : Subscription)
    (hsub : p.createSubscription cid pid = .ok sub) :
    (createSubscriptionFinish cid pid p pre).1 =
      match sub.latest_invoice with
      | none => ⟨500, .errorWith "Failed to create subscription" nullInvoiceError⟩
      | some inv =>
        match inv.payment_intent with
        | none =>
          ⟨500, .errorWith "Failed to create subscription" nullPaymentIntentError⟩
        | some pi => ⟨200, .subscriptionCreated sub.id pi.client_secret⟩ := by
  unfold createSubscriptionFinish
  rw [hsub]
  dsimp only
  cases sub.latest_invoice with
  | none => rfl
  | some inv =>
    dsimp only
    cases inv.payment_intent with
    | none => rfl
    | some pi => rfl

/-- C7: with a payment method present, the handler calls attach, then
update-default-payment-method, then create-subscription, in that order;
a failure of attach or update yields 500 and stops the sequence there. -/
theorem claim7_payment_method_sequencing
    (cid pid pm : String) (hc : cid ≠ "") (hp : pid ≠ "") (hm : pm ≠ "")
    (p : SubProvider) :
    (∀ m, p.attach pm cid = .error m →
      (createSubscriptionHandler ⟨some cid, some pid, some pm⟩ p).1 =
        ⟨500, .errorWith "Failed to create subscription" m⟩ ∧
      (createSubscriptionHandler ⟨some cid, some pid, some pm⟩ p).2 =
        [ProviderCall.attachPaymentMethod pm cid]) ∧
    (∀ m, p.attach pm cid = .ok () → p.updateCustomer cid pm = .error m →
      (createSubscriptionHandler ⟨some cid, some pid, some pm⟩ p).1 =
        ⟨500, .errorWith "Failed to create subscription" m⟩ ∧
      (createSubscriptionHandler ⟨some cid, some pid, some pm⟩ p).2 =
        [ProviderCall.attachPaymentMethod pm cid,
         ProviderCall.updateCustomer cid pm]) ∧
    (∀ m, p.attach pm cid = .ok () → p.updateCustomer cid pm = .ok () →
      p.createSubscription cid pid = .error m →
      (createSubscriptionHandler ⟨some cid, some pid, some pm⟩ p).1 =
        ⟨500, .errorWith "Failed to create subscription" m⟩ ∧
      (createSubscriptionHandler ⟨some cid, some pid, some pm⟩ p).2 =
        [ProviderCall.attachPaymentMethod pm cid,
         ProviderCall.updateCustomer cid pm,
         ProviderCall.createSubscription cid pid]) ∧
    (p.attach pm cid = .ok () → p.updateCustomer cid pm = .ok () →
      (createSubscriptionHandler ⟨some cid, some pid, some pm⟩ p).2 =
        [ProviderCall.attachPaymentMethod pm cid,
         ProviderCall.updateCustomer cid pm,
         ProviderCall.createSubscription cid pid]) := by
  have h1 := truthyStr_some hc
  have h2 := truthyStr_some hp
  have h3 := truthyStr_some hm
  refine ⟨?_, ?_, ?_, ?_⟩
  · intro m ha
    unfold createSubscriptionHandler
    simp only [h1, h2, h3, Bool.and_self, if_true, Option.getD_some]
    rw [ha]
    exact ⟨rfl, rfl⟩
  · intro m ha hu
    unfold createSubscriptionHandler
    simp only [h1, h2, h3, Bool.and_self, if_true, Option.getD_some]
    rw [ha, hu]
    exact ⟨rfl, rfl⟩
  · intro m ha hu hcr
    unfold createSubscriptionHandler
    simp only [h1, h2, h3, Bool.and_self, if_true, Option.getD_some]
    rw [ha, hu]
    unfold createSubscriptionFinish
    rw [hcr]
    exact ⟨rfl, rfl⟩
  · intro ha hu
    unfold createSubscriptionHandler
    simp only [h1, h2, h3, Bool.and_self, if_true, Option.getD_some]
    rw [ha, hu, createSubscriptionFinish_calls]
    rfl

/-- Witness for C7: the full successful sequence at concrete inputs, and
a create-subscription failure after attach and update succeeded mapping
to 500. -/
theorem claim7_witness :
    (createSubscriptionHandler ⟨some "cus_1", some "price_1", some "pm_1"⟩
        ⟨fun _ _ => .ok (), fun _ _ => .ok (),
         fun _ _ => .ok ⟨"sub_1", some ⟨some ⟨"sec_1"⟩⟩⟩⟩).2 =
      [ProviderCall.attachPaymentMethod "pm_1" "cus_1",
       ProviderCall.updateCustomer "cus_1" "pm_1",
       ProviderCall.createSubscription "cus_1" "price_1"] ∧
    (createSubscriptionHandler ⟨some "cus_1", some "price_1", some "pm_1"⟩
        ⟨fun _ _ => .ok (), fun _ _ => .ok (),
         fun _ _ => .error "card declined"⟩).1 =
      ⟨500, .errorWith "Failed to create subscription" "card declined"⟩ :=
  ⟨(claim7_payment_method_sequencing "cus_1" "price_1" "pm_1"
     (by decide) (by decide) (by decide)
     ⟨fun _ _ => .ok (), fun _ _ => .ok (),
      fun _ _ => .ok ⟨"sub_1", some ⟨some ⟨"sec_1"⟩⟩⟩⟩).2.2.2 rfl rfl,
   ((claim7_payment_method_sequencing "cus_1" "price_1" "pm_1"
     (by decide) (by decide) (by decide)
     ⟨fun _ _ => .ok (), fun _ _ => .ok (),
      fun _ _ => .error "card declined"⟩).2.2.1
     "card declined" rfl rfl rfl).1⟩

/-- C9: with a subscriptionId present, the only provider call is an
update setting cancel_at_period_end to true; the gateway never issues
the provider's immediate-cancellation operation (for any request). -/
theorem claim9_cancel_at_period_end_only
    (subscriptionId : Option String)
    (update : String → Bool → Except String CancelResult) :
    (truthyStr subscriptionId = true →
      (cancelSubscriptionHandler subscriptionId update).2 =
        [ProviderCall.updateSubscription (subscriptionId.getD "") true]) ∧
    (∀ c ∈ (cancelSubscriptionHandler subscriptionId update).2,
      (∀ s b, c = ProviderCall.updateSubscription s b → b = true) ∧
      (∀ s, c ≠ ProviderCall.cancelSubscriptionNow s)) := by
  have htr : (cancelSubscriptionHandler subscriptionId update).2 =
      if truthyStr subscriptionId then
        [ProviderCall.updateSubscription (subscriptionId.getD "") true]
      else [] := by
    unfold cancelSubscriptionHandler
    by_cases ht : truthyStr subscriptionId = true
    · simp only [ht, if_true]
      cases update (subscriptionId.getD "") true <;> rfl
    · have ht' : truthyStr subscriptionId = false := by
        simpa using ht
      simp only [ht', Bool.false_eq_true, if_false]
  constructor
  · intro ht
    rw [htr, if_pos ht]
  · intro c hc
    rw [htr] at hc
    by_cases ht : truthyStr subscriptionId = true
    · rw [if_pos ht] at hc
      rcases List.mem_singleton.mp hc with rfl
      constructor
      · intro s b heq
        cases heq
        rfl
      · intro s heq
        cases heq
    · rw [if_neg ht] at hc
      cases hc

/-- Witness for C9 at a concrete subscription id. -/
theorem claim9_witness :
    (cancelSubscriptionHandler (some "sub_9")
        (fun sid _ => .ok ⟨sid, true, 1700000000⟩)).2 =
      [ProviderCall.updateSubscription "sub_9" true] :=
  (claim9_cancel_at_period_end_only (some "sub_9")
    (fun sid _ => .ok ⟨sid, true, 1700000000⟩)).1 (by decide)

/-- C10: when the provider's create-subscription response lacks an
expanded invoice payment intent (null `latest_invoice` or null
`payment_intent`), the handler returns a 500 error response; a 200
response carries the client secret read from the expanded invoice's
payment intent. -/
theorem claim10_missing_invoice_payment_intent
    (cid pid : String) (hc : cid ≠ "") (hp : pid ≠ "")
    (pmOpt : Option String) (p : SubProvider) (sub : Subscription)
    (hreach : truthyStr pmOpt = false ∨
      (truthyStr pmOpt = true ∧ p.attach (pmOpt.getD "") cid = .ok () ∧
       p.updateCustomer cid (pmOpt.getD "") = .ok ()))
    (hsub : p.createSubscription cid pid = .ok sub) :
    ((sub.latest_invoice = none ∨
        ∃ inv, sub.latest_invoice = some inv ∧ inv.payment_intent = none) →
      (createSubscriptionHandler ⟨some cid, some pid, pmOpt⟩ p).1.status = 500 ∧
      ∃ m, (createSubscriptionHandler ⟨some cid, some pid, pmOpt⟩ p).1.body =
        .errorWith "Failed to create subscription" m) ∧
    ((createSubscriptionHandler ⟨some cid, some pid, pmOpt⟩ p).1.status = 200 →
      ∃ inv pi, sub.latest_invoice = some inv ∧ inv.payment_intent = some pi ∧
        (createSubscriptionHandler ⟨some cid, some pid, pmOpt⟩ p).1.body =
          .subscriptionCreated sub.id pi.client_secret) := by
  have h1 := truthyStr_some hc
  have h2 := truthyStr_some hp
  have hred : ∃ pre, createSubscriptionHandler ⟨some cid, some pid, pmOpt⟩ p =
      createSubscriptionFinish cid pid p pre := by
    rcases hreach with hf | ⟨ht, ha, hu⟩
    · refine ⟨[], ?_⟩
      unfold createSubscriptionHandler
      simp only [h1, h2, Bool.and_self, if_true, Option.getD_some, hf,
        Bool.false_eq_true, if_false]
    · refine ⟨[ProviderCall.attachPaymentMethod (pmOpt.getD "") cid,
        ProviderCall.updateCustomer cid (pmOpt.getD "")], ?_⟩
      unfold createSubscriptionHandler
      simp only [h1, h2, Bool.and_self, if_true, Option.getD_some, ht]
      rw [ha, hu]
  obtain ⟨pre, hpre⟩ := hred
  rw [hpre]
  have hresp := createSubscriptionFinish_resp cid pid p pre sub hsub
  constructor
  · intro hnull
    rcases hnull with hni | ⟨inv, hinv, hpi⟩
    · rw [hni] at hresp
      rw [hresp]
      exact ⟨rfl, nullInvoiceError, rfl⟩
    · rw [hinv] at hresp
      dsimp only at hresp
      rw [hpi] at hresp
      rw [hresp]
      exact ⟨rfl, nullPaymentIntentError, rfl⟩
  · intro h200
    cases hni : sub.latest_invoice with
    | none =>
      rw [hni] at hresp
      rw [hresp] at h200
      dsimp only at h200
      omega
    | some inv =>
      rw [hni] at hresp
      dsimp only at hresp
      cases hpi : inv.payment_intent with
      | none =>
        rw [hpi] at hresp
        rw [hresp] at h200
        dsimp only at h200
        omega
      | some pi =>
        rw [hpi] at hresp
        rw [hresp]
        exact ⟨inv, pi, rfl, hpi, rfl⟩

/-- Witness for C10: a provider returning a subscription with a null
`latest_invoice` yields a 500 error response. -/
theorem claim10_witness :
    (createSubscriptionHandler ⟨some "cus_1", some "price_1", none⟩
        ⟨fun _ _ => .ok (), fun _ _ => .ok (),
         fun _ _ => .ok ⟨"sub_2", none⟩⟩).1.status = 500 ∧
    ∃ m, (createSubscriptionHandler ⟨some "cus_1", some "price_1", none⟩
        ⟨fun _ _ => .ok (), fun _ _ => .ok (),
         fun _ _ => .ok ⟨"sub_2", none⟩⟩).1.body =
      .errorWith "Failed to create subscription" m :=
  (claim10_missing_invoice_payment_intent "cus_1" "price_1"
    (by decide) (by decide) none
    ⟨fun _ _ => .ok (), fun _ _ => .ok (), fun _ _ => .ok ⟨"sub_2", none⟩⟩
    ⟨"sub_2", none⟩ (Or.inl rfl) rfl).1 (Or.inl rfl)

/-- Requests inside the current window keep the window start and add
their number to the counter. -/
theorem runLimiter_state_in_window (t₀ : ℕ) (ts : List ℕ) (c : ℕ)
    (h : ∀ t ∈ ts, t < t₀ + windowMs) :
    (runLimiter (some ⟨t₀, c⟩) ts).1 = some ⟨t₀, c + ts.length⟩ := by
  induction ts generalizing c with
  | nil => rfl
  | cons t ts ih =>
    have ht : t < t₀ + windowMs := h t (List.mem_cons_self t ts)
    unfold runLimiter rateLimitStep
    dsimp only
    rw [if_neg (not_le.mpr ht)]
    dsimp only
    rw [ih (c + 1) (fun x hx => h x (List.mem_cons_of_mem t hx))]
    have : c + 1 + ts.length = c + (ts.length + 1) := by omega
    rw [this]
    rfl

/-- Requests inside the current window are all allowed as long as the
counter stays within the limit. -/
theorem runLimiter_allowed_in_window (t₀ : ℕ) (ts : List ℕ) (c : ℕ)
    (h : ∀ t ∈ ts, t < t₀ + windowMs)
    (hcnt : c + ts.length ≤ maxRequestsPerWindow) :
    ∀ b ∈ (runLimiter (some ⟨t₀, c⟩) ts).2, b = true := by
  induction ts generalizing c with
  | nil =>
    intro b hb
    cases hb
  | cons t ts ih =>
    intro b hb
    have ht : t < t₀ + windowMs := h t (List.mem_cons_self t ts)
    unfold runLimiter rateLimitStep at hb
    dsimp only at hb
    rw [if_neg (not_le.mpr ht)] at hb
    dsimp only at hb
    rcases List.mem_cons.mp hb with hb1 | hb2
    · subst hb1
      simp only [decide_eq_true_eq]
      simp only [List.length_cons] at hcnt
      omega
    · exact ih (c + 1) (fun x hx => h x (List.mem_cons_of_mem t hx))
        (by simp only [List.length_cons] at hcnt; omega) b hb2

/-- C4: from a fresh client, 100 requests within one 15-minute window
are all allowed; a 101st request in the same window is rejected with the
configured rate-limit message (429); a request at or past the window's
end is allowed again. -/
theorem claim4_rate_limit_window (t₀ : ℕ) (ts : List ℕ) (tOver tNew : ℕ)
    (hlen : ts.length = 99)
    (hin : ∀ t ∈ ts, t < t₀ + windowMs)
    (hOver : tOver < t₀ + windowMs)
    (hNew : t₀ + windowMs ≤ tNew) :
    (∀ b ∈ (runLimiter none (t₀ :: ts)).2, b = true) ∧
    rateLimitReject (rateLimitStep (runLimiter none (t₀ :: ts)).1 tOver).2 =
      some (429, rateLimitMessage) ∧
    rateLimitReject
      (rateLimitStep
        (some (rateLimitStep (runLimiter none (t₀ :: ts)).1 tOver).1) tNew).2 =
      none := by
  have hstate : (runLimiter none (t₀ :: ts)).1 = some ⟨t₀, 100⟩ := by
    unfold runLimiter rateLimitStep
    dsimp only
    rw [runLimiter_state_in_window t₀ ts 1 hin, hlen]
  refine ⟨?_, ?_, ?_⟩
  · intro b hb
    unfold runLimiter rateLimitStep at hb
    dsimp only at hb
    rcases List.mem_cons.mp hb with hb1 | hb2
    · subst hb1
      rfl
    · exact runLimiter_allowed_in_window t₀ ts 1 hin
        (by rw [hlen]; decide) b hb2
  · rw [hstate]
    unfold rateLimitStep
    dsimp only
    rw [if_neg (not_le.mpr hOver)]
    rfl
  · rw [hstate]
    unfold rateLimitStep
    dsimp only
    rw [if_neg (not_le.mpr hOver)]
    dsimp only
    rw [if_pos hNew]
    rfl

/-- Witness for C4: 100 requests at time 0, an over-limit request still
at time 0, and a request at the window boundary. -/
theorem claim4_witness :
    (∀ b ∈ (runLimiter none (0 :: List.replicate 99 0)).2, b = true) ∧
    rateLimitReject
      (rateLimitStep (runLimiter none (0 :: List.replicate 99 0)).1 0).2 =
      some (429, rateLimitMessage) ∧
    rateLimitReject
      (rateLimitStep
        (some (rateLimitStep
          (runLimiter none (0 :: List.replicate 99 0)).1 0).1) windowMs).2 =
      none :=
  claim4_rate_limit_window 0 (List.replicate 99 0) 0 windowMs
    (List.length_replicate 99 0)
    (fun t ht => by
      rw [List.eq_of_mem_replicate ht]
      decide)
    (by decide)
    (by omega)

end StripeGateway
